import Mathlib

/-
Shallow embedding of `os_client_config/cloud_config.py` (class `CloudConfig`),
the resolution engine of the os-client-config repository, together with
theorems settling the frozen claims about it.

Modelling conventions:
* Python values appearing in a cloud's merged `config` mapping are modelled by
  the inductive type `Value` (None, bool, int, str, tuple-pair, dict, and the
  opaque keystoneauth `Session` object). Python truthiness is `Value.truthy`.
* The `config` dict is an association list `Config` with the usual dict
  semantics (`cfgLookup` = `d.get(k)`, `cfgItem` = `d[k]`, which raises
  `KeyError` on a missing key — modelled as `Except.error`).
* Fallible Python code is modelled in `Except String`; the string carries the
  exception ("KeyError: k", or the ConfigurationError message).
* The mutable `self._keystone_session` field is threaded explicitly: stateful
  methods take and return the `CloudConfig` record.
* External collaborators (the keystoneauth catalog, glanceclient's
  `strip_version`, the session token) are opaque parameters (`Externals`).
* String scanning helpers (`split('_')`, `endswith`, `replace('-','_')`,
  `'_'.join`) are re-implemented by structural recursion over `String.data`
  so that every definition kernel-evaluates on concrete inputs.
-/

set_option autoImplicit false

namespace OSCC

/-- Model of a Python value as it occurs in a CloudConfig's config mapping
and in constructed client calls. -/
inductive Value where
  | vnull
  | vbool (b : Bool)
  | vint (n : Int)
  | vstr (s : String)
  | vpair (a b : Value)
  | vdict (entries : List (String × Value))
  | vsess (auth : Nat) (verify cert timeout : Value)

/-- Python truthiness of a `Value` (None, False, 0, "", {} are falsy;
tuples and session objects here are always truthy). -/
def Value.truthy : Value → Bool
  | .vnull => false
  | .vbool b => b
  | .vint n => n != 0
  | .vstr s => !s.data.isEmpty
  | .vpair _ _ => true
  | .vdict d => !d.isEmpty
  | .vsess _ _ _ _ => true

/-- Python equality test `v == s` against a string literal: true exactly when
`v` is that string (a non-string never equals a string in Python). -/
def Value.eqStr (v : Value) (s : String) : Bool :=
  match v with
  | .vstr t => t == s
  | _ => false

/-- Python `key.replace('-', '_')`. -/
def normKey (s : String) : String :=
  ⟨s.data.map (fun c => if c = '-' then '_' else c)⟩

/-- Python `key[3:] if key.startswith('os_') else key`. -/
def dropOsNamespace (key : String) : String :=
  match key.data with
  | 'o' :: 's' :: '_' :: rest => ⟨rest⟩
  | _ => key

/-- Boolean test that `a` is a prefix of `b`, by structural recursion. -/
def listPre : List Char → List Char → Bool
  | [], _ => true
  | _ :: _, [] => false
  | a :: as, b :: bs => a == b && listPre as bs

/-- Python `s.endswith(suf)`. -/
def endsWithS (s suf : String) : Bool :=
  listPre suf.data.reverse s.data.reverse

/-- Python `s.split('_')` on the character list (always nonempty output;
`''.split('_') == ['']`). -/
def splitUnd : List Char → List (List Char)
  | [] => [[]]
  | c :: rest =>
    match splitUnd rest, c == '_' with
    | r, true => [] :: r
    | [], false => [[c]]
    | h :: t, false => (c :: h) :: t

/-- Python `s.split('_')`. -/
def splitUnderscore (s : String) : List String :=
  (splitUnd s.data).map (fun l => ⟨l⟩)

/-- Python `'_'.join(parts)`. -/
def joinUnderscore : List String → String
  | [] => ""
  | [s] => s
  | s :: rest => s ++ "_" ++ joinUnderscore rest

/-- Python `"_".join(key.split('_')[:-2])` from `get_services`. -/
def stripLastTwo (key : String) : String :=
  joinUnderscore ((splitUnderscore key).dropLast.dropLast)

/-- The merged configuration mapping: an insertion-ordered dict from string
keys to values (keys are unique in a Python dict; lookup takes the first
match). -/
abbrev Config := List (String × Value)

/-- Python `d.get(k)` / `d.get(k, None)` distinguished from a stored None:
`none` means the key is absent. -/
def cfgLookup (c : Config) (k : String) : Option Value :=
  match c with
  | [] => none
  | (k', v) :: rest => if k' = k then some v else cfgLookup rest k

/-- Python `d[k]`: the value, or a `KeyError` when the key is absent. -/
def cfgItem (c : Config) (k : String) : Except String Value :=
  match cfgLookup c k with
  | some v => .ok v
  | none => .error ("KeyError: " ++ k)

/-- Python `d.get(k, default)`. -/
def cfgGetD (c : Config) (k : String) (d : Value) : Value :=
  (cfgLookup c k).getD d

/-- Python `k in d` for a kwargs dict. -/
def dictHas (d : List (String × Value)) (k : String) : Bool :=
  match d with
  | [] => false
  | (k', _) :: rest => k' == k || dictHas rest k

/-- Python `d[k] = v` on a dict: replace in place if present (keys unique),
else append. -/
def dictSet (d : List (String × Value)) (k : String) (v : Value) :
    List (String × Value) :=
  if dictHas d k then d.map (fun p => if p.1 = k then (k, v) else p)
  else d ++ [(k, v)]

/-- Python `d.update(upd)`: set each entry of `upd` in order. -/
def dictUpdate (d upd : List (String × Value)) : List (String × Value) :=
  upd.foldl (fun acc p => dictSet acc p.1 p.2) d

/-- The optional ProfileStore (`self._openstack_config`): supplies cache
policy. Expiration entries are modelled as rationals (Python `float()` of a
numeric entry is that number). -/
structure ProfileStore where
  cache_expiration_time : Value
  cache_path : Value
  cache_class : Value
  cache_arguments : Value
  cache_expiration : List (String × Rat)

/-- The keystoneauth Session, modelled by the arguments it was constructed
from in `get_session` (the auth plugin is an opaque identifier). -/
structure Session where
  auth : Nat
  verify : Value
  cert : Value
  timeout : Value

/-- The session object as a `Value`, for passing it as the `session=` kwarg. -/
def Session.toValue (s : Session) : Value :=
  .vsess s.auth s.verify s.cert s.timeout

/-- The `CloudConfig` object. `auth = none` models `auth_plugin=None` (the
falsy, session-disabling state); `keystone_session` is the lazily memoized
`self._keystone_session` field. -/
structure CloudConfig where
  name : String
  region : String
  config : Config
  force_ipv4 : Bool
  auth : Option Nat
  openstack_config : Option ProfileStore
  keystone_session : Option Session

/-- Python `CloudConfig.__init__`: stores the given fields and initializes
`self._keystone_session = None`. -/
def CloudConfig.init (name region : String) (config : Config)
    (force_ipv4 : Bool) (auth_plugin : Option Nat)
    (openstack_config : Option ProfileStore) : CloudConfig :=
  ⟨name, region, config, force_ipv4, auth_plugin, openstack_config, none⟩

/-- Opaque external collaborators of the engine: the catalog queries answered
by a live Session, glanceclient's `strip_version`, and the session token. -/
structure Externals where
  authEndpoint : Session → Option String
  catalogLookup : Session → Value → Value → Value → String → Option String
  getToken : Session → Value
  strip_version : Value → Value × Value

/-- Convert a catalog answer (str or None) to a `Value`. -/
def optEndpoint : Option String → Value
  | none => .vnull
  | some s => .vstr s

/-- The invocation of an opaque external client constructor: positional
arguments and keyword arguments, uninterpreted. -/
structure ClientCall where
  args : List Value
  kwargs : List (String × Value)

/-- Python `CloudConfig.__getattr__(key)` as written in the source: strip a
leading `os_`, test membership of the *raw* stripped key against the
dash-normalized config keys, and on success do a raw `self.config[key]`
lookup (which raises `KeyError` when the key is stored only in dashed form);
on membership failure return None. -/
def getattrImpl (config : Config) (key : String) : Except String (Option Value) :=
  let key := dropOsNamespace key
  if (config.map (fun p => normKey p.1)).contains key then
    match cfgLookup config key with
    | some v => .ok (some v)
    | none => .error ("KeyError: " ++ key)
  else .ok none

/-- Modelled from the spec: `getAttribute(key)` strips the provider-namespace
prefix, normalizes dashes in the requested key to underscores, and looks the
normalized key up in the config with every config key normalized the same
way; total (never raises). This is the claimed behavior, for comparison with
`getattrImpl`. -/
def getattrSpec (config : Config) (key : String) : Option Value :=
  let key := normKey (dropOsNamespace key)
  cfgLookup (config.map (fun p => (normKey p.1, p.2))) key

/-- Python `CloudConfig.__eq__`: compares `name`, `region` and `config`. -/
def ceq (a b : CloudConfig) : Prop :=
  a.name = b.name ∧ a.region = b.region ∧ a.config = b.config

/-- Python `CloudConfig.__ne__`: `not self == other`. -/
def cne (a b : CloudConfig) : Prop :=
  ¬ ceq a b

/-- Python `CloudConfig.get_requests_verify_args`. Returns
`(verify, cert, warned)` where `warned` records whether the
contradictory-configuration warning was emitted; `KeyError`s from the
bracket accesses `config['verify']`, `config['cacert']`, `config['key']`
surface as errors, in the source's evaluation order. -/
def CloudConfig.get_requests_verify_args (cc : CloudConfig) :
    Except String (Value × Value × Bool) :=
  match cfgItem cc.config "verify" with
  | .error e => .error e
  | .ok v =>
    match cfgItem cc.config "cacert" with
    | .error e => .error e
    | .ok ca =>
      let verify := if v.truthy && ca.truthy then ca else v
      let warned := if v.truthy && ca.truthy then false else ca.truthy
      let cert := cfgGetD cc.config "cert" .vnull
      if cert.truthy then
        match cfgItem cc.config "key" with
        | .error e => .error e
        | .ok k =>
          .ok (verify, (if k.truthy then .vpair cert k else cert), warned)
      else .ok (verify, cert, warned)

/-- Python `CloudConfig.get_services`: collect `"_".join(key.split('_')[:-2])`
for every config key ending (without any required underscore) in
`api_version`, `service_type` or `service_name`, then `list(set(...))`.
Python's set iteration order is unspecified, so deduplication order here is a
representative choice; claims about the result are set-level. -/
def CloudConfig.get_services (cc : CloudConfig) : List String :=
  (((cc.config.filter (fun p =>
      endsWithS p.1 "api_version" || endsWithS p.1 "service_type"
        || endsWithS p.1 "service_name")).map
    (fun p => stripLastTwo p.1))).dedup

/-- Python `CloudConfig.get_interface(service_type=None)`:
`config.get(key, config.get('interface'))`, with the per-service key used
only when `service_type` is truthy. Absent values are Python None. -/
def CloudConfig.get_interface (cc : CloudConfig) (service_type : Option String) :
    Value :=
  let interface := cfgGetD cc.config "interface" .vnull
  match service_type with
  | none => interface
  | some st =>
    if st = "" then interface
    else cfgGetD cc.config (st ++ "_interface") interface

/-- Python `CloudConfig.get_region_name(service_type=None)`. -/
def CloudConfig.get_region_name (cc : CloudConfig) (service_type : Option String) :
    Value :=
  match service_type with
  | none => .vstr cc.region
  | some st =>
    if st = "" then .vstr cc.region
    else cfgGetD cc.config (st ++ "_region_name") (.vstr cc.region)

/-- Python `CloudConfig.get_api_version(service_type)`. -/
def CloudConfig.get_api_version (cc : CloudConfig) (service_type : String) : Value :=
  cfgGetD cc.config (service_type ++ "_api_version") .vnull

/-- Python `CloudConfig.get_service_type(service_type)`: falls back to the
input service type itself. -/
def CloudConfig.get_service_type (cc : CloudConfig) (service_type : String) : Value :=
  cfgGetD cc.config (service_type ++ "_service_type") (.vstr service_type)

/-- Python `CloudConfig.get_service_name(service_type)`. -/
def CloudConfig.get_service_name (cc : CloudConfig) (service_type : String) : Value :=
  cfgGetD cc.config (service_type ++ "_service_name") .vnull

/-- Python `CloudConfig.get_endpoint(service_type)`:
`config.get('{service_type}_endpoint', None)`. -/
def CloudConfig.get_endpoint (cc : CloudConfig) (service_type : String) : Value :=
  cfgGetD cc.config (service_type ++ "_endpoint") .vnull

/-- Python `CloudConfig.get_session`: return the memoized session if set;
otherwise raise the ConfigurationError when no auth plugin is bound, else
construct a Session from the verify/cert values and `config['api_timeout']`
and memoize it. (The debug log line and the urllib3 warning squelch are pure
side effects with no modelled state.) -/
def CloudConfig.get_session (cc : CloudConfig) :
    Except String (Session × CloudConfig) :=
  match cc.keystone_session with
  | some s => .ok (s, cc)
  | none =>
    match cc.auth with
    | none => .error "Problem with auth parameters"
    | some a =>
      match cc.get_requests_verify_args with
      | .error e => .error e
      | .ok (verify, cert, _) =>
        match cfgItem cc.config "api_timeout" with
        | .error e => .error e
        | .ok timeout =>
          let s : Session := ⟨a, verify, cert, timeout⟩
          .ok (s, { cc with keystone_session := some s })

/-- Python `CloudConfig.get_session_endpoint(service_key)`: return a truthy
configured endpoint override, else acquire the session and query the catalog
(the fixed auth-interface query for `identity`, the four-axis query
otherwise). -/
def CloudConfig.get_session_endpoint (ext : Externals) (cc : CloudConfig)
    (service_key : String) : Except String (Value × CloudConfig) :=
  let override := cc.get_endpoint service_key
  if override.truthy then .ok (override, cc)
  else
    match cc.get_session with
    | .error e => .error e
    | .ok (s, cc) =>
      if service_key = "identity" then
        .ok (optEndpoint (ext.authEndpoint s), cc)
      else
        .ok (optEndpoint (ext.catalogLookup s
          (cc.get_service_type service_key)
          (cc.get_service_name service_key)
          (cc.get_interface (some service_key))
          cc.region), cc)

/-- Python `CloudConfig._get_swift_client`: token and pre-auth URL based
construction; returns None (no call) when the object-store endpoint is
falsy. `self.api_timeout` goes through `__getattr__`. Extra `**kwargs` are
accepted and ignored by the source, so they are not parameters here. -/
def CloudConfig.get_swift_client (ext : Externals) (cc : CloudConfig) :
    Except String (Option ClientCall × CloudConfig) :=
  match cc.get_session with
  | .error e => .error e
  | .ok (s, cc) =>
    let token := ext.getToken s
    match CloudConfig.get_session_endpoint ext cc "object-store" with
    | .error e => .error e
    | .ok (endpoint, cc) =>
      if endpoint.truthy then
        match getattrImpl cc.config "api_timeout" with
        | .error e => .error e
        | .ok t =>
          .ok (some ⟨[], [
            ("preauthurl", endpoint),
            ("preauthtoken", token),
            ("auth_version", cc.get_api_version "identity"),
            ("os_options", .vdict [
              ("auth_token", token),
              ("object_storage_url", endpoint),
              ("region_name", .vstr cc.region)]),
            ("timeout", t.getD .vnull)]⟩, cc)
      else .ok (none, cc)

/-- Python `CloudConfig.get_legacy_client`: the legacy client bridge. The
result is the invocation handed to the opaque `client_class` (`none` when the
swift path returned None). `interface_key = none` or an empty string models a
falsy `interface_key` argument. -/
def CloudConfig.get_legacy_client (ext : Externals) (cc : CloudConfig)
    (service_key : String) (interface_key : Option String)
    (pass_version_arg : Bool) (kwargs : List (String × Value)) :
    Except String (Option ClientCall × CloudConfig) :=
  if service_key = "object-store" then
    cc.get_swift_client ext
  else
    let interface := cc.get_interface (some service_key)
    match CloudConfig.get_session_endpoint ext cc service_key with
    | .error e => .error e
    | .ok (endpoint, cc) =>
      let ikey :=
        match interface_key with
        | some ik =>
          if ik = "" then
            (if service_key = "image" then "interface" else "endpoint_type")
          else ik
        | none => if service_key = "image" then "interface" else "endpoint_type"
      match cc.get_session with
      | .error e => .error e
      | .ok (s, cc) =>
        let ckw : List (String × Value) := [
          ("session", s.toValue),
          ("service_name", cc.get_service_name service_key),
          ("service_type", cc.get_service_type service_key),
          ("region_name", .vstr cc.region)]
        let ckw :=
          if service_key = "image" then
            dictSet ckw "endpoint" (ext.strip_version endpoint).1
          else ckw
        let ckw := dictUpdate ckw kwargs
        let ckw := dictSet ckw ikey interface
        if pass_version_arg then
          let version := cc.get_api_version service_key
          let version :=
            if service_key = "network" && version.eqStr "2" then .vstr "2.0"
            else version
          if service_key = "identity" && !(dictHas ckw "endpoint") then
            match CloudConfig.get_session_endpoint ext cc "identity" with
            | .error e => .error e
            | .ok (ep, cc) =>
              .ok (some ⟨[version], dictSet ckw "endpoint" ep⟩, cc)
          else .ok (some ⟨[version], ckw⟩, cc)
        else .ok (some ⟨[], ckw⟩, cc)

/-- Python `CloudConfig.get_cache_resource_expiration(resource, default)`:
when a ProfileStore is bound, look `resource` up in its expiration mapping
and return the float of the entry, or `default` when absent; when no
ProfileStore is bound, fall through (Python's implicit `return None`). -/
def CloudConfig.get_cache_resource_expiration (cc : CloudConfig)
    (resource : String) (default : Option Rat) : Option Rat :=
  match cc.openstack_config with
  | none => none
  | some oc =>
    match oc.cache_expiration.lookup resource with
    | none => default
    | some q => some q

/-! Shared helper lemmas about the embedding (used by several claim proofs). -/

/-- A successful `get_session` only writes the memoized session field: the
identity fields and the config are unchanged. -/
theorem get_session_preserves (cc : CloudConfig) (s : Session) (cc' : CloudConfig)
    (h : CloudConfig.get_session cc = .ok (s, cc')) :
    cc'.config = cc.config ∧ cc'.name = cc.name ∧ cc'.region = cc.region := by
  rw [CloudConfig.get_session] at h
  split at h
  · cases h
    exact ⟨rfl, rfl, rfl⟩
  · split at h
    · exact absurd h (by simp)
    · split at h
      · exact absurd h (by simp)
      · split at h
        · exact absurd h (by simp)
        · cases h
          exact ⟨rfl, rfl, rfl⟩

/-- A successful `get_session_endpoint` preserves config, name and region. -/
theorem get_session_endpoint_preserves (ext : Externals) (cc : CloudConfig)
    (sk : String) (v : Value) (cc' : CloudConfig)
    (h : CloudConfig.get_session_endpoint ext cc sk = .ok (v, cc')) :
    cc'.config = cc.config ∧ cc'.name = cc.name ∧ cc'.region = cc.region := by
  rw [CloudConfig.get_session_endpoint] at h
  split at h
  · cases h
    exact ⟨rfl, rfl, rfl⟩
  · split at h
    · exact absurd h (by simp)
    · rename_i s cc₂ heq
      split at h <;>
        (cases h; exact get_session_preserves cc s _ heq)

/-! Concrete profiles and collaborators used by the witnesses. -/

/-- A concrete external collaborator for witness runs. -/
def extW : Externals :=
  ⟨fun _ => some "http://auth.example", fun _ _ _ _ _ => some "http://catalog.example",
   fun _ => .vstr "tok", fun v => (v, .vnull)⟩

/-- A well-formed config supplying the keys session construction reads. -/
def cfgW : Config :=
  [("verify", .vbool true), ("cacert", .vstr "ca"), ("api_timeout", .vint 60)]

/-- Profile with an auth plugin bound and a well-formed config. -/
def ccW : CloudConfig := CloudConfig.init "n" "r" cfgW false (some 7) none

/-- The session `ccW.get_session` constructs. -/
def sessW : Session := ⟨7, .vstr "ca", .vnull, .vint 60⟩

/-- `ccW` after its first successful session call. -/
def ccW' : CloudConfig := ⟨"n", "r", cfgW, false, some 7, none, some sessW⟩

/-! Claim theorems. -/

/-- Claim C1 (code bug): on config `{"a-b": 1}` the attribute lookup for
`"a_b"` passes the dash-normalized membership test but then performs the raw
`self.config["a_b"]` access, raising `KeyError` — whereas the claimed
behavior (`getattrSpec`, which normalizes the requested key and looks it up
against normalized config keys) returns the value 1 and never raises. -/
theorem getattr_dashed_config_key_raises :
    getattrImpl [("a-b", .vint 1)] "a_b" = .error "KeyError: a_b" ∧
    getattrSpec [("a-b", .vint 1)] "a_b" = some (.vint 1) :=
  ⟨rfl, rfl⟩

/-- Claim C7 (counterexample): with no ProfileStore bound and an explicit
default of 5, `get_cache_resource_expiration` returns the absent value
(Python's implicit None), not the supplied default. -/
theorem cache_expiration_unbound_ignores_default :
    CloudConfig.get_cache_resource_expiration
      (CloudConfig.init "n" "r" [] false none none) "server" (some 5) = none ∧
    CloudConfig.get_cache_resource_expiration
      (CloudConfig.init "n" "r" [] false none none) "server" (some 5) ≠ some 5 :=
  ⟨rfl, fun h => Option.noConfusion (rfl.symm.trans h)⟩

/-- Claim C7 (amended): `get_cache_resource_expiration` returns the
resource's entry when a ProfileStore is bound and the resource is present,
the supplied default when a ProfileStore is bound but the resource is
absent, and the absent value (ignoring the default) when no ProfileStore is
bound. -/
theorem cache_expiration_spec :
    (∀ (cc : CloudConfig) (r : String) (d : Option Rat),
       cc.openstack_config = none →
       CloudConfig.get_cache_resource_expiration cc r d = none) ∧
    (∀ (cc : CloudConfig) (oc : ProfileStore) (r : String) (d : Option Rat),
       cc.openstack_config = some oc → oc.cache_expiration.lookup r = none →
       CloudConfig.get_cache_resource_expiration cc r d = d) ∧
    (∀ (cc : CloudConfig) (oc : ProfileStore) (r : String) (d : Option Rat) (q : Rat),
       cc.openstack_config = some oc → oc.cache_expiration.lookup r = some q →
       CloudConfig.get_cache_resource_expiration cc r d = some q) := by
  refine ⟨?_, ?_, ?_⟩
  · intro cc r d h
    simp [CloudConfig.get_cache_resource_expiration, h]
  · intro cc oc r d h hr
    simp [CloudConfig.get_cache_resource_expiration, h, hr]
  · intro cc oc r d q h hr
    simp [CloudConfig.get_cache_resource_expiration, h, hr]

/-- A concrete ProfileStore with one expiration entry. -/
def psW : ProfileStore := ⟨.vnull, .vnull, .vnull, .vnull, [("server", 5)]⟩

/-- Claim C7 witness: with the store bound, a present resource yields its
entry and an absent one yields the default. -/
theorem cache_expiration_spec_witness :
    CloudConfig.get_cache_resource_expiration
      (CloudConfig.init "n" "r" [] false none (some psW)) "server" (some 7) = some 5 ∧
    CloudConfig.get_cache_resource_expiration
      (CloudConfig.init "n" "r" [] false none (some psW)) "image" (some 7) = some 7 :=
  ⟨cache_expiration_spec.2.2 _ psW "server" (some 7) 5 rfl rfl,
   cache_expiration_spec.2.1 _ psW "image" (some 7) rfl rfl⟩

/-- Claim C8: equality of two profiles holds iff name, region and config all
agree; it is reflexive, symmetric and transitive; profiles agreeing on those
three fields (so differing at most in auth plugin, ProfileStore, force_ipv4
or memoized session) are interchangeable on either side of the equality; and
`__ne__` is the exact negation of `__eq__`. -/
theorem cloud_config_equality :
    (∀ a b : CloudConfig,
       ceq a b ↔ (a.name = b.name ∧ a.region = b.region ∧ a.config = b.config)) ∧
    (∀ a : CloudConfig, ceq a a) ∧
    (∀ a b : CloudConfig, ceq a b → ceq b a) ∧
    (∀ a b c : CloudConfig, ceq a b → ceq b c → ceq a c) ∧
    (∀ a a' b : CloudConfig,
       a.name = a'.name → a.region = a'.region → a.config = a'.config →
       ((ceq a b ↔ ceq a' b) ∧ (ceq b a ↔ ceq b a'))) ∧
    (∀ a b : CloudConfig, cne a b ↔ ¬ ceq a b) := by
  refine ⟨fun a b => Iff.rfl, fun a => ⟨rfl, rfl, rfl⟩, ?_, ?_, ?_, fun a b => Iff.rfl⟩
  · rintro a b ⟨h1, h2, h3⟩
    exact ⟨h1.symm, h2.symm, h3.symm⟩
  · rintro a b c ⟨h1, h2, h3⟩ ⟨g1, g2, g3⟩
    exact ⟨h1.trans g1, h2.trans g2, h3.trans g3⟩
  · rintro a a' b h1 h2 h3
    constructor
    · constructor
      · rintro ⟨g1, g2, g3⟩
        exact ⟨h1 ▸ g1, h2 ▸ g2, h3 ▸ g3⟩
      · rintro ⟨g1, g2, g3⟩
        exact ⟨h1.trans g1, h2.trans g2, h3.trans g3⟩
    · constructor
      · rintro ⟨g1, g2, g3⟩
        exact ⟨g1.trans h1, g2.trans h2, g3.trans h3⟩
      · rintro ⟨g1, g2, g3⟩
        exact ⟨g1.trans h1.symm, g2.trans h2.symm, g3.trans h3.symm⟩

/-- Claim C8 witness: two concrete profiles differing only in force_ipv4,
auth plugin, ProfileStore and memoized session are equal, and symmetry
applies to them. -/
theorem cloud_config_equality_witness :
    ceq (CloudConfig.init "c" "r1" [("verify", .vbool true)] false none none)
        ⟨"c", "r1", [("verify", .vbool true)], true, some 3, some psW, some sessW⟩ ∧
    ceq ⟨"c", "r1", [("verify", .vbool true)], true, some 3, some psW, some sessW⟩
        (CloudConfig.init "c" "r1" [("verify", .vbool true)] false none none) :=
  ⟨(cloud_config_equality.1 _ _).mpr ⟨rfl, rfl, rfl⟩,
   cloud_config_equality.2.2.1 _ _ ((cloud_config_equality.1 _ _).mpr ⟨rfl, rfl, rfl⟩)⟩

/-- Claim C2 (counterexample): a profile with an auth plugin bound but an
empty config sees its first session call fail with `KeyError` from
`config['verify']` — no Session is constructed or memoized, so the first
call does not unconditionally construct a Session for every auth-bound
profile. -/
theorem get_session_first_call_can_fail :
    (CloudConfig.init "n" "r" [] false (some 1) none).get_session =
      .error "KeyError: verify" :=
  rfl

/-- Claim C2 (amended): the memoized field starts out absent; whenever a
session call succeeds, the returned session is memoized and every subsequent
call returns that identical session with the state unchanged; and a profile
whose memoized field is set returns that session unconditionally (no re-check
of auth or config). -/
theorem get_session_memoization :
    (∀ (n r : String) (c : Config) (f : Bool) (a : Option Nat)
       (o : Option ProfileStore),
       (CloudConfig.init n r c f a o).keystone_session = none) ∧
    (∀ (cc : CloudConfig) (s : Session) (cc' : CloudConfig),
       CloudConfig.get_session cc = .ok (s, cc') →
       cc'.keystone_session = some s ∧
       CloudConfig.get_session cc' = .ok (s, cc')) ∧
    (∀ (cc : CloudConfig) (s : Session),
       cc.keystone_session = some s →
       CloudConfig.get_session cc = .ok (s, cc)) := by
  refine ⟨fun n r c f a o => rfl, ?_, ?_⟩
  · intro cc s cc' h
    have hmem : ∀ (cc₂ : CloudConfig), cc₂.keystone_session = some s →
        CloudConfig.get_session cc₂ = .ok (s, cc₂) := by
      intro cc₂ h₂
      rw [CloudConfig.get_session, h₂]
    rw [CloudConfig.get_session] at h
    split at h
    · rename_i s0 hks
      cases h
      exact ⟨hks, hmem _ hks⟩
    · split at h
      · exact absurd h (by simp)
      · split at h
        · exact absurd h (by simp)
        · split at h
          · exact absurd h (by simp)
          · cases h
            exact ⟨rfl, hmem _ rfl⟩
  · intro cc s h
    rw [CloudConfig.get_session, h]

/-- Claim C2 witness: the concrete auth-bound profile `ccW` constructs and
memoizes `sessW` on its first call, and the second call returns the
identical memoized session unchanged. -/
theorem get_session_memoization_witness :
    ccW'.keystone_session = some sessW ∧
    CloudConfig.get_session ccW' = .ok (sessW, ccW') :=
  get_session_memoization.2.1 ccW sessW ccW' rfl

/-- Claim C3: with no auth plugin bound (and nothing memoized, as after
construction), the session accessor raises the ConfigurationError, and the
endpoint accessor for a service with no configured endpoint override raises
the same propagated error. Since the error path performs no assignment, the
profile state is unchanged and every later call retries construction. -/
theorem get_session_no_auth_error :
    ∀ (ext : Externals) (cc : CloudConfig) (sk : String),
      cc.auth = none → cc.keystone_session = none →
      cfgLookup cc.config (sk ++ "_endpoint") = none →
      CloudConfig.get_session cc = .error "Problem with auth parameters" ∧
      CloudConfig.get_session_endpoint ext cc sk =
        .error "Problem with auth parameters" := by
  intro ext cc sk ha hks hep
  have hs : CloudConfig.get_session cc = .error "Problem with auth parameters" := by
    rw [CloudConfig.get_session, hks, ha]
  refine ⟨hs, ?_⟩
  rw [CloudConfig.get_session_endpoint]
  have hov : cc.get_endpoint sk = .vnull := by
    rw [CloudConfig.get_endpoint, cfgGetD, hep]
    rfl
  rw [hov]
  simp only [Value.truthy, Bool.false_eq_true, if_false, hs]

/-- Claim C3 witness: a concrete authless profile errors on both accessors. -/
theorem get_session_no_auth_error_witness :
    CloudConfig.get_session (CloudConfig.init "n" "r" [("verify", .vbool true)] false none none) =
      .error "Problem with auth parameters" ∧
    CloudConfig.get_session_endpoint extW
      (CloudConfig.init "n" "r" [("verify", .vbool true)] false none none) "compute" =
      .error "Problem with auth parameters" :=
  get_session_no_auth_error extW _ "compute" rfl rfl rfl

/-- Claim C10: when the per-service endpoint override is configured but
falsy, `get_session_endpoint` ignores it: with no auth plugin it propagates
the ConfigurationError, and with a session available it answers from the
catalog (the auth-interface query for identity, the four-axis catalog query
otherwise). -/
theorem endpoint_override_needs_truthy :
    ∀ (ext : Externals) (cc : CloudConfig) (sk : String) (v : Value),
      cfgLookup cc.config (sk ++ "_endpoint") = some v → v.truthy = false →
      ((cc.auth = none → cc.keystone_session = none →
         CloudConfig.get_session_endpoint ext cc sk =
           .error "Problem with auth parameters") ∧
       (∀ (s : Session) (cc₂ : CloudConfig),
         CloudConfig.get_session cc = .ok (s, cc₂) →
         CloudConfig.get_session_endpoint ext cc sk =
           .ok ((if sk = "identity" then optEndpoint (ext.authEndpoint s)
                 else optEndpoint (ext.catalogLookup s
                   (cc₂.get_service_type sk) (cc₂.get_service_name sk)
                   (cc₂.get_interface (some sk)) cc₂.region)), cc₂))) := by
  intro ext cc sk v hv hfalsy
  have hov : cc.get_endpoint sk = v := by
    rw [CloudConfig.get_endpoint, cfgGetD, hv]
    rfl
  constructor
  · intro ha hks
    rw [CloudConfig.get_session_endpoint, hov, hfalsy]
    simp only [Bool.false_eq_true, if_false]
    rw [CloudConfig.get_session, hks, ha]
  · intro s cc₂ hsess
    rw [CloudConfig.get_session_endpoint, hov, hfalsy]
    simp only [Bool.false_eq_true, if_false]
    rw [hsess]
    by_cases hid : sk = "identity"
    · simp [hid]
    · simp [hid]

/-- A profile configuring an empty-string compute endpoint override and no
auth plugin. -/
def cc10W : CloudConfig :=
  CloudConfig.init "n" "r" [("compute_endpoint", .vstr "")] false none none

/-- Claim C10 witness: a profile configuring `compute_endpoint` to the empty
string and binding no auth plugin still raises the ConfigurationError from
the endpoint accessor. -/
theorem endpoint_override_needs_truthy_witness :
    CloudConfig.get_session_endpoint extW cc10W "compute" =
      .error "Problem with auth parameters" :=
  (endpoint_override_needs_truthy extW cc10W "compute" (.vstr "") rfl rfl).1 rfl rfl

/-- Claim C4 (counterexample): in the very branch the claim describes as
"returns the raw verify flag and emits a warning (never raises)" — verify
falsy, cacert configured — a truthy `cert` with no `key` entry makes the
call raise `KeyError: 'key'` instead of returning. -/
theorem verify_warning_branch_can_raise :
    (CloudConfig.init "n" "r"
      [("verify", .vbool false), ("cacert", .vstr "/ca.pem"), ("cert", .vstr "/c.pem")]
      false none none).get_requests_verify_args = .error "KeyError: key" :=
  rfl

/-- Claim C4 (amended): with `verify` and `cacert` entries present and the
client-cert portion not raising (here: no truthy cert configured), the
effective verify value is cacert when both are truthy and the raw verify
flag otherwise, with the contradictory-configuration warning emitted exactly
when the raw-flag branch is taken with a truthy cacert; the call raises
KeyError when `verify` or `cacert` is absent; and the two claimed scenarios
hold as stated. -/
theorem get_requests_verify_args_spec :
    (∀ (cc : CloudConfig) (v ca : Value),
       cfgLookup cc.config "verify" = some v →
       cfgLookup cc.config "cacert" = some ca →
       (cfgGetD cc.config "cert" .vnull).truthy = false →
       cc.get_requests_verify_args =
         .ok ((if v.truthy && ca.truthy then ca else v),
              cfgGetD cc.config "cert" .vnull,
              (if v.truthy && ca.truthy then false else ca.truthy))) ∧
    (∀ cc : CloudConfig, cfgLookup cc.config "verify" = none →
       cc.get_requests_verify_args = .error "KeyError: verify") ∧
    (∀ (cc : CloudConfig) (v : Value),
       cfgLookup cc.config "verify" = some v →
       cfgLookup cc.config "cacert" = none →
       cc.get_requests_verify_args = .error "KeyError: cacert") ∧
    (CloudConfig.init "n" "r" [("verify", .vbool true), ("cacert", .vstr "/ca.pem")]
      false none none).get_requests_verify_args =
      .ok (.vstr "/ca.pem", .vnull, false) ∧
    (CloudConfig.init "n" "r" [("verify", .vbool false), ("cacert", .vstr "/ca.pem")]
      false none none).get_requests_verify_args =
      .ok (.vbool false, .vnull, true) := by
  refine ⟨?_, ?_, ?_, rfl, rfl⟩
  · intro cc v ca hv hca hc
    rw [CloudConfig.get_requests_verify_args, cfgItem, hv, cfgItem, hca]
    simp only [hc, Bool.false_eq_true, if_false]
  · intro cc hv
    rw [CloudConfig.get_requests_verify_args, cfgItem, hv]
    rfl
  · intro cc v hv hca
    rw [CloudConfig.get_requests_verify_args, cfgItem, hv, cfgItem, hca]
    rfl

/-- Claim C4 witness: the general branch applied to the first scenario
profile. -/
theorem get_requests_verify_args_spec_witness :
    (CloudConfig.init "n" "r" [("verify", .vbool true), ("cacert", .vstr "/ca.pem")]
      false none none).get_requests_verify_args =
      .ok (.vstr "/ca.pem", .vnull, false) :=
  (get_requests_verify_args_spec.1
    (CloudConfig.init "n" "r" [("verify", .vbool true), ("cacert", .vstr "/ca.pem")]
      false none none)
    (.vbool true) (.vstr "/ca.pem") rfl rfl rfl).trans rfl

/-- Claim C5 (counterexample): with a cert configured but no `key` entry at
all, the call raises `KeyError: 'key'` instead of returning the cert alone. -/
theorem cert_without_key_entry_raises :
    (CloudConfig.init "n" "r"
      [("verify", .vbool true), ("cacert", .vstr "ca"), ("cert", .vstr "/c.pem")]
      false none none).get_requests_verify_args = .error "KeyError: key" :=
  rfl

/-- Claim C5 (amended): when a truthy cert is configured (and `verify` and
`cacert` are present so the call reaches the cert logic), the second
component is the pair (cert, key) when the `key` entry is present and
truthy, the cert alone when the `key` entry is present but falsy, and the
call raises KeyError when the `key` entry is absent; when no truthy cert is
configured the second component is the configured absent-or-falsy cert
value. -/
theorem cert_pair_resolution :
    (∀ (cc : CloudConfig) (v ca k : Value),
       cfgLookup cc.config "verify" = some v →
       cfgLookup cc.config "cacert" = some ca →
       (cfgGetD cc.config "cert" .vnull).truthy = true →
       cfgLookup cc.config "key" = some k → k.truthy = true →
       cc.get_requests_verify_args =
         .ok ((if v.truthy && ca.truthy then ca else v),
              .vpair (cfgGetD cc.config "cert" .vnull) k,
              (if v.truthy && ca.truthy then false else ca.truthy))) ∧
    (∀ (cc : CloudConfig) (v ca k : Value),
       cfgLookup cc.config "verify" = some v →
       cfgLookup cc.config "cacert" = some ca →
       (cfgGetD cc.config "cert" .vnull).truthy = true →
       cfgLookup cc.config "key" = some k → k.truthy = false →
       cc.get_requests_verify_args =
         .ok ((if v.truthy && ca.truthy then ca else v),
              cfgGetD cc.config "cert" .vnull,
              (if v.truthy && ca.truthy then false else ca.truthy))) ∧
    (∀ (cc : CloudConfig) (v ca : Value),
       cfgLookup cc.config "verify" = some v →
       cfgLookup cc.config "cacert" = some ca →
       (cfgGetD cc.config "cert" .vnull).truthy = true →
       cfgLookup cc.config "key" = none →
       cc.get_requests_verify_args = .error "KeyError: key") ∧
    (∀ (cc : CloudConfig) (v ca : Value),
       cfgLookup cc.config "verify" = some v →
       cfgLookup cc.config "cacert" = some ca →
       (cfgGetD cc.config "cert" .vnull).truthy = false →
       cc.get_requests_verify_args =
         .ok ((if v.truthy && ca.truthy then ca else v),
              cfgGetD cc.config "cert" .vnull,
              (if v.truthy && ca.truthy then false else ca.truthy))) := by
  refine ⟨?_, ?_, ?_, ?_⟩
  · intro cc v ca k hv hca hc hk hkt
    rw [CloudConfig.get_requests_verify_args, cfgItem, hv, cfgItem, hca]
    simp only [hc, if_true, cfgItem, hk, hkt]
  · intro cc v ca k hv hca hc hk hkt
    rw [CloudConfig.get_requests_verify_args, cfgItem, hv, cfgItem, hca]
    simp only [hc, if_true, cfgItem, hk, hkt, Bool.false_eq_true, if_false]
  · intro cc v ca hv hca hc hk
    rw [CloudConfig.get_requests_verify_args, cfgItem, hv, cfgItem, hca]
    simp only [hc, if_true, cfgItem, hk]
    rfl
  · intro cc v ca hv hca hc
    rw [CloudConfig.get_requests_verify_args, cfgItem, hv, cfgItem, hca]
    simp only [hc, Bool.false_eq_true, if_false]

/-- Claim C5 witness: a full cert/key pair resolves to (cert, key). -/
theorem cert_pair_resolution_witness :
    (CloudConfig.init "n" "r"
      [("verify", .vbool true), ("cacert", .vstr "ca"),
       ("cert", .vstr "/c.pem"), ("key", .vstr "/k.pem")]
      false none none).get_requests_verify_args =
      .ok (.vstr "ca", .vpair (.vstr "/c.pem") (.vstr "/k.pem"), false) :=
  (cert_pair_resolution.1
    (CloudConfig.init "n" "r"
      [("verify", .vbool true), ("cacert", .vstr "ca"),
       ("cert", .vstr "/c.pem"), ("key", .vstr "/k.pem")]
      false none none)
    (.vbool true) (.vstr "ca") (.vstr "/k.pem") rfl rfl rfl rfl rfl).trans rfl

/-- Claim C6 (counterexample): the source tests `key.endswith('api_version')`
with no leading underscore, so the bare cloud-wide key `api_version` matches
and contributes the empty service identifier, where the claim (suffix
`_api_version`) says it contributes nothing. -/
theorem get_services_bare_key_contributes :
    (CloudConfig.init "n" "r" [("api_version", .vstr "3")] false none none).get_services
      = [""] ∧
    (CloudConfig.init "n" "r" [("api_version", .vstr "3")] false none none).get_services
      ≠ [] :=
  ⟨rfl, fun h => List.noConfusion (rfl.symm.trans h)⟩

/-- Claim C6 (amended): a service identifier is returned exactly when some
config key ends in `api_version`, `service_type` or `service_name`
(underscore not required, so two-token keys such as `api_version` itself
contribute the empty identifier) and the identifier is that key minus its
trailing two underscore-separated tokens; the result is deduplicated; and
the claimed scenario holds. -/
theorem get_services_characterization :
    (∀ (cc : CloudConfig) (s : String),
       s ∈ cc.get_services ↔
         ∃ k v, (k, v) ∈ cc.config ∧
           (endsWithS k "api_version" || endsWithS k "service_type"
             || endsWithS k "service_name") = true ∧
           s = stripLastTwo k) ∧
    (∀ cc : CloudConfig, cc.get_services.Nodup) ∧
    (CloudConfig.init "n" "r"
      [("compute_api_version", .vstr "2"), ("network_service_type", .vstr "network"),
       ("other_key", .vint 1)] false none none).get_services = ["compute", "network"] := by
  refine ⟨?_, ?_, rfl⟩
  · intro cc s
    simp only [CloudConfig.get_services, List.mem_dedup, List.mem_map, List.mem_filter]
    constructor
    · rintro ⟨⟨k, v⟩, ⟨hm, hp⟩, hs⟩
      exact ⟨k, v, hm, hp, hs.symm⟩
    · rintro ⟨k, v, hm, hp, hs⟩
      exact ⟨(k, v), ⟨hm, hp⟩, hs.symm⟩
  · intro cc
    exact List.nodup_dedup _

/-- Claim C6 witness: the characterization applied at the scenario profile
shows `"compute"` is discovered from `compute_api_version`. -/
theorem get_services_characterization_witness :
    "compute" ∈ (CloudConfig.init "n" "r"
      [("compute_api_version", .vstr "2"), ("network_service_type", .vstr "network"),
       ("other_key", .vint 1)] false none none).get_services :=
  (get_services_characterization.1 _ "compute").mpr
    ⟨"compute_api_version", .vstr "2", List.mem_cons_self _ _, rfl, rfl⟩

/-- The scenario profile for the legacy network client: auth bound, a
well-formed config, API version "2" for network and a truthy endpoint
override. -/
def cc9W : CloudConfig :=
  CloudConfig.init "n" "r"
    [("verify", .vbool true), ("cacert", .vstr "ca"), ("api_timeout", .vint 60),
     ("network_api_version", .vstr "2"), ("network_endpoint", .vstr "http://n")]
    false (some 7) none

/-- `cc9W` after the session was constructed and memoized. -/
def cc9W' : CloudConfig :=
  ⟨"n", "r",
   [("verify", .vbool true), ("cacert", .vstr "ca"), ("api_timeout", .vint 60),
    ("network_api_version", .vstr "2"), ("network_endpoint", .vstr "http://n")],
   false, some 7, none, some ⟨7, .vstr "ca", .vnull, .vint 60⟩⟩

/-- The client invocation `get_legacy_client` builds for `cc9W`. -/
def call9W : ClientCall :=
  ⟨[.vstr "2.0"],
   [("session", .vsess 7 (.vstr "ca") .vnull (.vint 60)),
    ("service_name", .vnull), ("service_type", .vstr "network"),
    ("region_name", .vstr "r"), ("endpoint_type", .vnull)]⟩

/-- Claim C9: whenever the legacy client bridge passes a positional version
argument (for any non-object-store service) and succeeds, the positional
arguments are exactly the resolved API version, rewritten to "2.0" precisely
when the service is network and the resolved version is the string "2", and
passed unchanged in every other case. -/
theorem legacy_client_version_rewrite :
    ∀ (ext : Externals) (cc cc' : CloudConfig) (sk : String) (ik : Option String)
      (kwargs : List (String × Value)) (call : ClientCall),
      sk ≠ "object-store" →
      CloudConfig.get_legacy_client ext cc sk ik true kwargs = .ok (some call, cc') →
      call.args = [if sk = "network" && (cc.get_api_version sk).eqStr "2"
                   then Value.vstr "2.0" else cc.get_api_version sk] := by
  intro ext cc cc' sk ik kwargs call hsk h
  rw [CloudConfig.get_legacy_client.eq_def, if_neg hsk] at h
  cases hep : CloudConfig.get_session_endpoint ext cc sk with
  | error e =>
    rw [hep] at h
    exact absurd h (by simp)
  | ok p =>
    obtain ⟨endpoint, cc1⟩ := p
    rw [hep] at h
    simp only [] at h
    cases hsess : cc1.get_session with
    | error e =>
      rw [hsess] at h
      exact absurd h (by simp)
    | ok q =>
      obtain ⟨s, cc2⟩ := q
      rw [hsess] at h
      simp only [] at h
      have hav : cc2.get_api_version sk = cc.get_api_version sk := by
        have hc1 := (get_session_endpoint_preserves ext cc sk endpoint cc1 hep).1
        have hc2 := (get_session_preserves cc1 s cc2 hsess).1
        simp only [CloudConfig.get_api_version, hc2, hc1]
      rw [hav] at h
      repeat' split at h
      all_goals
        simp only [Except.ok.injEq, Prod.mk.injEq, Option.some.injEq,
          reduceCtorEq, false_and, and_false] at h
      all_goals
        obtain ⟨hcall, -⟩ := h
      all_goals
        rw [← hcall]
      all_goals
        first
        | rfl
        | (split <;> simp_all)

/-- Claim C9 witness: on the concrete network profile with version "2", the
bridge passes positional version "2.0". -/
theorem legacy_client_version_rewrite_witness :
    call9W.args = [Value.vstr "2.0"] :=
  (legacy_client_version_rewrite extW cc9W cc9W' "network" none [] call9W
    (by decide) rfl).trans rfl

end OSCC
